import Mathlib

/-!
Verification of the pypetkitapi device data aggregation pipeline.

Shallow embedding of the code in src/pypetkitapi (client.py, const.py,
containers.py): the Task Planner, the refresh-cycle batch ordering, the
stats dispatch, the fetch-response normalization, and the Pet-Stats
Reconciler.  Machine integers are modelled as Int (Python ints are
unbounded), optional/None-able Python attributes as Option, and Python
code that can raise a TypeError as Except String.
-/

namespace PetkitSpec

/-! ## Constants (src/pypetkitapi/const.py) -/

def T3 : String := "t3"
def T4 : String := "t4"
def T5 : String := "t5"
def T6 : String := "t6"
def T7 : String := "t7"

def DEVICES_LITTER_BOX : List String := [T3, T4, T5, T6, T7]
def LITTER_WITH_CAMERA : List String := [T5, T6, T7]
def LITTER_NO_CAMERA : List String := [T3, T4]
def FEEDER_WITH_CAMERA : List String := ["d4h", "d4sh"]
def DEVICES_FEEDER : List String := ["feeder", "feedermini", "d3", "d4", "d4s", "d4h", "d4sh"]
def DEVICES_WATER_FOUNTAIN : List String := ["w4", "w5", "ctw2", "ctw3"]
def DEVICES_PURIFIER : List String := ["k2", "k3"]

/-! ## Device (src/pypetkitapi/containers.py, class Device)

Only the fields read by the embedded operations are modelled
(device_id, device_type, device_name); the remaining source fields
(created_at, group_id, type, type_code, unique_id) are never read by
the code under verification. -/

structure Device where
  device_id : Int
  device_type : String
  device_name : Option String := some "unnamed_device"
  deriving DecidableEq, Repr

/-! ## Task Planner (client.py `_prepare_tasks`, `_add_lb_task_by_type`,
`_add_feeder_task_by_type`)

A planned operation is either a `_fetch_device_data(device, data_class)`
call, identified by the data class, or a `_fetch_media(device)` call. -/

inductive FetchKind where
  | feeder
  | feederRecord
  | litter
  | litterRecord
  | litterStats
  | petOutGraph
  | waterFountain
  | waterFountainRecord
  | purifier
  | liveFeed
  deriving DecidableEq, Repr

inductive Task where
  | fetchDeviceData (device : Device) (kind : FetchKind)
  | fetchMedia (device : Device)
  deriving DecidableEq, Repr

/-- The four batches returned by `_prepare_tasks`
(`main_tasks, record_tasks, media_tasks, live_tasks`). -/
structure Batches where
  main : List Task
  records : List Task
  media : List Task
  live : List Task
  deriving DecidableEq, Repr

/-- `_add_lb_task_by_type(self, record_tasks, live_tasks, media_tasks, device_type, device)`.
The parameter order is exactly the source signature; the body appends the
LitterStats / PetOutGraph fetches to `record_tasks`, the `_fetch_media` call to
`media_tasks` and the LiveFeed fetch to `live_tasks`.  List mutation by
reference is modelled by returning the three parameter lists, in parameter
order. -/
def add_lb_task_by_type (record_tasks live_tasks media_tasks : List Task)
    (device_type : String) (device : Device) :
    List Task × List Task × List Task :=
  let record_tasks :=
    if device_type ∈ LITTER_NO_CAMERA then
      record_tasks ++ [Task.fetchDeviceData device FetchKind.litterStats]
    else record_tasks
  if device_type ∈ LITTER_WITH_CAMERA then
    (record_tasks ++ [Task.fetchDeviceData device FetchKind.petOutGraph],
     live_tasks ++ [Task.fetchDeviceData device FetchKind.liveFeed],
     media_tasks ++ [Task.fetchMedia device])
  else
    (record_tasks, live_tasks, media_tasks)

/-- `_add_feeder_task_by_type(self, media_tasks, live_tasks, device_type, device)`. -/
def add_feeder_task_by_type (media_tasks live_tasks : List Task)
    (device_type : String) (device : Device) : List Task × List Task :=
  if device_type ∈ FEEDER_WITH_CAMERA then
    (media_tasks ++ [Task.fetchMedia device],
     live_tasks ++ [Task.fetchDeviceData device FetchKind.liveFeed])
  else
    (media_tasks, live_tasks)

/-- One iteration of the `for device in device_list` loop in `_prepare_tasks`.

Note the litter-box branch: the source calls
`self._add_lb_task_by_type(record_tasks, media_tasks, live_tasks, device_type, device)`,
so the caller's `media_tasks` is bound to the callee's `live_tasks` parameter
and the caller's `live_tasks` to the callee's `media_tasks` parameter. -/
def prepareStep (acc : Batches) (device : Device) : Batches :=
  let device_type := device.device_type
  if device_type ∈ DEVICES_FEEDER then
    let main := acc.main ++ [Task.fetchDeviceData device FetchKind.feeder]
    let records := acc.records ++ [Task.fetchDeviceData device FetchKind.feederRecord]
    let (media, live) := add_feeder_task_by_type acc.media acc.live device_type device
    ⟨main, records, media, live⟩
  else if device_type ∈ DEVICES_LITTER_BOX then
    let main := acc.main ++ [Task.fetchDeviceData device FetchKind.litter]
    let records := acc.records ++ [Task.fetchDeviceData device FetchKind.litterRecord]
    let (records, media, live) :=
      add_lb_task_by_type records acc.media acc.live device_type device
    ⟨main, records, media, live⟩
  else if device_type ∈ DEVICES_WATER_FOUNTAIN then
    ⟨acc.main ++ [Task.fetchDeviceData device FetchKind.waterFountain],
     acc.records ++ [Task.fetchDeviceData device FetchKind.waterFountainRecord],
     acc.media, acc.live⟩
  else if device_type ∈ DEVICES_PURIFIER then
    ⟨acc.main ++ [Task.fetchDeviceData device FetchKind.purifier],
     acc.records, acc.media, acc.live⟩
  else
    acc

/-- `_prepare_tasks(self, device_list)`. -/
def prepare_tasks (device_list : List Device) : Batches :=
  device_list.foldl prepareStep ⟨[], [], [], []⟩

/-- The operations contributed by a single device: `prepareStep` run on
empty batches. -/
def deviceOps (device : Device) : Batches :=
  prepareStep ⟨[], [], [], []⟩ device

/-- Componentwise concatenation of batches. -/
def bappend (a b : Batches) : Batches :=
  ⟨a.main ++ b.main, a.records ++ b.records, a.media ++ b.media, a.live ++ b.live⟩

theorem bappend_assoc (a b c : Batches) :
    bappend (bappend a b) c = bappend a (bappend b c) := by
  simp [bappend, List.append_assoc]

theorem bappend_nil (a : Batches) : bappend a ⟨[], [], [], []⟩ = a := by
  simp [bappend]

theorem bappend_nil_left (a : Batches) : bappend ⟨[], [], [], []⟩ a = a := by
  simp [bappend]

theorem prepareStep_eq_bappend (acc : Batches) (d : Device) :
    prepareStep acc d = bappend acc (deviceOps d) := by
  dsimp only [prepareStep, deviceOps, add_lb_task_by_type, add_feeder_task_by_type]
  split_ifs <;> simp [bappend]

theorem foldl_prepareStep (l : List Device) (acc : Batches) :
    l.foldl prepareStep acc = bappend acc (prepare_tasks l) := by
  induction l generalizing acc with
  | nil => simp [prepare_tasks, bappend_nil]
  | cons d t ih =>
      simp only [List.foldl_cons, prepare_tasks]
      rw [ih, prepareStep_eq_bappend, ih (prepareStep ⟨[], [], [], []⟩ d),
        prepareStep_eq_bappend ⟨[], [], [], []⟩ d, bappend_nil_left, bappend_assoc]

theorem prepare_tasks_cons (d : Device) (l : List Device) :
    prepare_tasks (d :: l) = bappend (deviceOps d) (prepare_tasks l) := by
  show (d :: l).foldl prepareStep ⟨[], [], [], []⟩ = _
  rw [List.foldl_cons, foldl_prepareStep, prepareStep_eq_bappend, bappend_nil_left]

theorem prepare_tasks_flatMap (l : List Device) :
    prepare_tasks l =
      ⟨l.flatMap fun d => (deviceOps d).main,
       l.flatMap fun d => (deviceOps d).records,
       l.flatMap fun d => (deviceOps d).media,
       l.flatMap fun d => (deviceOps d).live⟩ := by
  induction l with
  | nil => rfl
  | cons d t ih => rw [prepare_tasks_cons, ih]; simp [bappend]

/-! ## Category disjointness facts used when evaluating the planner branches -/

theorem litter_not_feeder {s : String} (h : s ∈ DEVICES_LITTER_BOX) :
    s ∉ DEVICES_FEEDER := by
  fin_cases h <;> decide

theorem wf_not_feeder {s : String} (h : s ∈ DEVICES_WATER_FOUNTAIN) :
    s ∉ DEVICES_FEEDER := by
  fin_cases h <;> decide

theorem wf_not_litter {s : String} (h : s ∈ DEVICES_WATER_FOUNTAIN) :
    s ∉ DEVICES_LITTER_BOX := by
  fin_cases h <;> decide

theorem pur_not_feeder {s : String} (h : s ∈ DEVICES_PURIFIER) :
    s ∉ DEVICES_FEEDER := by
  fin_cases h <;> decide

theorem pur_not_litter {s : String} (h : s ∈ DEVICES_PURIFIER) :
    s ∉ DEVICES_LITTER_BOX := by
  fin_cases h <;> decide

theorem pur_not_wf {s : String} (h : s ∈ DEVICES_PURIFIER) :
    s ∉ DEVICES_WATER_FOUNTAIN := by
  fin_cases h <;> decide

/-- Claim C1: the Task Planner emits exactly one main-data operation for every
device whose type is in the feeder, litter-box, water-fountain or purifier
category; feeder, litter-box and water-fountain devices additionally get
exactly one records operation in the records batch, a purifier gets only the
main operation, and a device of unknown type contributes no operation to any
batch (and the planner is a total function, so no error is raised).  The first
four conjuncts attribute each batch entry to the device that contributed it. -/
theorem C1_planner_ops_per_device (l : List Device) :
    (prepare_tasks l).main = (l.flatMap fun d => (deviceOps d).main) ∧
    (prepare_tasks l).records = (l.flatMap fun d => (deviceOps d).records) ∧
    (prepare_tasks l).media = (l.flatMap fun d => (deviceOps d).media) ∧
    (prepare_tasks l).live = (l.flatMap fun d => (deviceOps d).live) ∧
    ∀ d : Device,
      (d.device_type ∈ DEVICES_FEEDER →
        (deviceOps d).main = [Task.fetchDeviceData d FetchKind.feeder] ∧
        (deviceOps d).records.count (Task.fetchDeviceData d FetchKind.feederRecord) = 1) ∧
      (d.device_type ∈ DEVICES_LITTER_BOX →
        (deviceOps d).main = [Task.fetchDeviceData d FetchKind.litter] ∧
        (deviceOps d).records.count (Task.fetchDeviceData d FetchKind.litterRecord) = 1) ∧
      (d.device_type ∈ DEVICES_WATER_FOUNTAIN →
        (deviceOps d).main = [Task.fetchDeviceData d FetchKind.waterFountain] ∧
        (deviceOps d).records = [Task.fetchDeviceData d FetchKind.waterFountainRecord]) ∧
      (d.device_type ∈ DEVICES_PURIFIER →
        deviceOps d = ⟨[Task.fetchDeviceData d FetchKind.purifier], [], [], []⟩) ∧
      (d.device_type ∉ DEVICES_FEEDER ++ DEVICES_LITTER_BOX ++
          DEVICES_WATER_FOUNTAIN ++ DEVICES_PURIFIER →
        deviceOps d = ⟨[], [], [], []⟩) := by
  have hflat := prepare_tasks_flatMap l
  refine ⟨by rw [hflat], by rw [hflat], by rw [hflat], by rw [hflat], fun d => ?_⟩
  refine ⟨fun h => ?_, fun h => ?_, fun h => ?_, fun h => ?_, fun h => ?_⟩
  · dsimp only [deviceOps, prepareStep, add_feeder_task_by_type]
    rw [if_pos h]
    by_cases hc : d.device_type ∈ FEEDER_WITH_CAMERA <;>
      simp [hc, List.count_cons]
  · dsimp only [deviceOps, prepareStep, add_lb_task_by_type]
    rw [if_neg (litter_not_feeder h), if_pos h]
    by_cases h1 : d.device_type ∈ LITTER_NO_CAMERA <;>
      by_cases h2 : d.device_type ∈ LITTER_WITH_CAMERA <;>
        simp [h1, h2, List.count_cons]
  · dsimp only [deviceOps, prepareStep]
    rw [if_neg (wf_not_feeder h), if_neg (wf_not_litter h), if_pos h]
    simp
  · dsimp only [deviceOps, prepareStep]
    rw [if_neg (pur_not_feeder h), if_neg (pur_not_litter h),
      if_neg (pur_not_wf h), if_pos h]
    simp
  · simp only [List.mem_append, not_or] at h
    obtain ⟨⟨⟨hf, hl⟩, hw⟩, hp⟩ := h
    dsimp only [deviceOps, prepareStep]
    rw [if_neg hf, if_neg hl, if_neg hw, if_neg hp]

def devPurifierW : Device := ⟨9, "k2", some "pur"⟩

def devUnknownW : Device := ⟨10, "gizmo", some "x"⟩

/-- Witness for C1: the planner evaluated on a concrete purifier and a concrete
unknown-type device. -/
theorem C1_witness :
    deviceOps devPurifierW =
      ⟨[Task.fetchDeviceData devPurifierW FetchKind.purifier], [], [], []⟩ ∧
    deviceOps devUnknownW = ⟨[], [], [], []⟩ := by
  have h := C1_planner_ops_per_device []
  exact ⟨(h.2.2.2.2 devPurifierW).2.2.2.1 (by decide),
         (h.2.2.2.2 devUnknownW).2.2.2.2 (by decide)⟩

def devT5 : Device := ⟨5, "t5", some "box"⟩

/-- Claim C3 (code evaluation): for a litter-with-camera device the planner
does append the pet-out-graph fetch to the records batch, but the media batch
receives the live-feed fetch and the live batch receives the media fetch: the
source call site passes `(record_tasks, media_tasks, live_tasks, ...)` to
`_add_lb_task_by_type`, whose parameters are declared in the order
`(record_tasks, live_tasks, media_tasks, ...)`. -/
theorem C3_swap_eval :
    prepare_tasks [devT5] =
      ⟨[Task.fetchDeviceData devT5 FetchKind.litter],
       [Task.fetchDeviceData devT5 FetchKind.litterRecord,
        Task.fetchDeviceData devT5 FetchKind.petOutGraph],
       [Task.fetchDeviceData devT5 FetchKind.liveFeed],
       [Task.fetchMedia devT5]⟩ := by
  decide

/-! ## Refresh cycle trace model (client.py `get_devices_data`)

The source runs
`await asyncio.gather(*main_tasks); await asyncio.gather(*record_tasks);
await asyncio.gather(*media_tasks); await asyncio.gather(*live_tasks);
await self._execute_stats_tasks()`.
Each `await asyncio.gather(batch)` returns only once every task of the batch
has completed, and the next statement starts only afterwards, so an execution
trace of the cycle is a concatenation of one trace segment per batch followed
by the stats step; within a segment the operations interleave arbitrarily,
subject only to each operation starting before it finishes. -/

inductive Phase where
  | main
  | records
  | media
  | live
  deriving DecidableEq, Repr

def phaseIdx : Phase → Nat
  | .main => 0
  | .records => 1
  | .media => 2
  | .live => 3

inductive Ev where
  | start (p : Phase) (t : Task)
  | finish (p : Phase) (t : Task)
  | statsRun
  deriving DecidableEq, Repr

/-- Phase position of an event; the final `_execute_stats_tasks` step sits
after all four batches. -/
def evIdx : Ev → Nat
  | .start p _ => phaseIdx p
  | .finish p _ => phaseIdx p
  | .statsRun => 4

def batchEvents (p : Phase) (ops : List Task) : List Ev :=
  ops.flatMap fun t => [Ev.start p t, Ev.finish p t]

/-- A trace segment produced by `asyncio.gather(ops)`: some interleaving of
the start/finish events of every operation of the batch, each operation
starting strictly before it finishes. -/
def IsGatherTrace (p : Phase) (ops : List Task) (tr : List Ev) : Prop :=
  tr.Perm (batchEvents p ops) ∧
  ∀ t ∈ ops, ∃ a b, a < b ∧ tr.get? a = some (Ev.start p t) ∧
    tr.get? b = some (Ev.finish p t)

def batchOf (b : Batches) : Phase → List Task
  | .main => b.main
  | .records => b.records
  | .media => b.media
  | .live => b.live

/-- The possible execution traces of one `get_devices_data` refresh cycle on
a given device list. -/
def IsRefreshTrace (devices : List Device) (tr : List Ev) : Prop :=
  ∃ t1 t2 t3 t4 : List Ev,
    IsGatherTrace Phase.main (prepare_tasks devices).main t1 ∧
    IsGatherTrace Phase.records (prepare_tasks devices).records t2 ∧
    IsGatherTrace Phase.media (prepare_tasks devices).media t3 ∧
    IsGatherTrace Phase.live (prepare_tasks devices).live t4 ∧
    tr = t1 ++ (t2 ++ (t3 ++ (t4 ++ [Ev.statsRun])))

theorem mem_batchEvents_phase {p : Phase} {ops : List Task} {e : Ev}
    (h : e ∈ batchEvents p ops) : evIdx e = phaseIdx p := by
  simp only [batchEvents, List.mem_flatMap] at h
  obtain ⟨t, -, he⟩ := h
  simp only [List.mem_cons, List.mem_singleton, List.not_mem_nil, or_false] at he
  rcases he with rfl | rfl <;> rfl

theorem gather_phase {p : Phase} {ops : List Task} {tr : List Ev}
    (h : IsGatherTrace p ops tr) : ∀ e ∈ tr, evIdx e = phaseIdx p :=
  fun _ he => mem_batchEvents_phase (h.1.mem_iff.mp he)

theorem gather_finish {p : Phase} {ops : List Task} {tr : List Ev}
    (h : IsGatherTrace p ops tr) {t : Task} (ht : t ∈ ops) :
    ∃ i, i < tr.length ∧ tr.get? i = some (Ev.finish p t) := by
  have hm : Ev.finish p t ∈ tr := by
    refine h.1.mem_iff.mpr ?_
    simp only [batchEvents, List.mem_flatMap]
    exact ⟨t, ht, by simp⟩
  obtain ⟨i, hi⟩ := List.mem_iff_get?.mp hm
  exact ⟨i, (List.get?_eq_some.mp hi).1, hi⟩

theorem seg_finish_before {p : Phase} {ops : List Task}
    (pre seg post tr : List Ev) (htr : tr = pre ++ (seg ++ post))
    (hseg : IsGatherTrace p ops seg) {t : Task} (ht : t ∈ ops) {j : Nat}
    (hj : pre.length + seg.length ≤ j) :
    ∃ i, i < j ∧ tr.get? i = some (Ev.finish p t) := by
  obtain ⟨i0, hi0len, hi0⟩ := gather_finish hseg ht
  refine ⟨pre.length + i0, by omega, ?_⟩
  subst htr
  rw [List.get?_append_right (by omega), Nat.add_sub_cancel_left,
    List.get?_append hi0len, hi0]

theorem get?_append_cases {α : Type} {l₁ l₂ : List α} {j : Nat} {a : α}
    (h : (l₁ ++ l₂).get? j = some a) :
    (j < l₁.length ∧ l₁.get? j = some a) ∨
    (l₁.length ≤ j ∧ l₂.get? (j - l₁.length) = some a) := by
  rcases lt_or_ge j l₁.length with hj | hj
  · exact Or.inl ⟨hj, by rwa [List.get?_append hj] at h⟩
  · exact Or.inr ⟨hj, by rwa [List.get?_append_right hj] at h⟩

/-- Claim C2: in any execution trace of a refresh cycle, before any event of a
later batch (in particular before any operation of that batch starts), every
operation of each earlier batch has already finished, and the stats step
(`_execute_stats_tasks`, which drives the Pet-Stats Reconciler) comes after
every operation of all four batches has finished. -/
theorem C2_batch_barriers (devices : List Device) (tr : List Ev)
    (h : IsRefreshTrace devices tr) :
    ∀ j e, tr.get? j = some e → ∀ p : Phase, phaseIdx p < evIdx e →
      ∀ t ∈ batchOf (prepare_tasks devices) p,
        ∃ i, i < j ∧ tr.get? i = some (Ev.finish p t) := by
  obtain ⟨t1, t2, t3, t4, g1, g2, g3, g4, rfl⟩ := h
  intro j e hj p hp t ht
  have hidx : evIdx e = 0 ∨
      (t1.length ≤ j ∧ evIdx e = 1) ∨
      (t1.length + t2.length ≤ j ∧ evIdx e = 2) ∨
      (t1.length + t2.length + t3.length ≤ j ∧ evIdx e = 3) ∨
      (t1.length + t2.length + t3.length + t4.length ≤ j ∧ evIdx e = 4) := by
    rcases get?_append_cases hj with ⟨h1, he⟩ | ⟨h1, hj'⟩
    · exact Or.inl (gather_phase g1 e (List.get?_mem he))
    rcases get?_append_cases hj' with ⟨h2, he⟩ | ⟨h2, hj''⟩
    · exact Or.inr (Or.inl ⟨h1, gather_phase g2 e (List.get?_mem he)⟩)
    rcases get?_append_cases hj'' with ⟨h3, he⟩ | ⟨h3, hj3⟩
    · exact Or.inr (Or.inr (Or.inl ⟨by omega, gather_phase g3 e (List.get?_mem he)⟩))
    rcases get?_append_cases hj3 with ⟨h4, he⟩ | ⟨h4, hj4⟩
    · exact Or.inr (Or.inr (Or.inr (Or.inl ⟨by omega,
        gather_phase g4 e (List.get?_mem he)⟩)))
    · refine Or.inr (Or.inr (Or.inr (Or.inr ⟨by omega, ?_⟩)))
      have he : e = Ev.statsRun := by
        have := List.get?_mem hj4
        simpa using this
      subst he; rfl
  cases p with
  | main =>
      refine seg_finish_before [] t1 (t2 ++ (t3 ++ (t4 ++ [Ev.statsRun]))) _
        rfl g1 ht ?_
      simp only [phaseIdx] at hp
      simp only [List.length_nil, Nat.zero_add]
      rcases hidx with h0 | ⟨hl, h0⟩ | ⟨hl, h0⟩ | ⟨hl, h0⟩ | ⟨hl, h0⟩ <;> omega
  | records =>
      refine seg_finish_before t1 t2 (t3 ++ (t4 ++ [Ev.statsRun])) _
        rfl g2 ht ?_
      simp only [phaseIdx] at hp
      rcases hidx with h0 | ⟨hl, h0⟩ | ⟨hl, h0⟩ | ⟨hl, h0⟩ | ⟨hl, h0⟩ <;> omega
  | media =>
      refine seg_finish_before (t1 ++ t2) t3 (t4 ++ [Ev.statsRun]) _
        (List.append_assoc t1 t2 _).symm g3 ht ?_
      simp only [phaseIdx] at hp
      simp only [List.length_append]
      rcases hidx with h0 | ⟨hl, h0⟩ | ⟨hl, h0⟩ | ⟨hl, h0⟩ | ⟨hl, h0⟩ <;> omega
  | live =>
      refine seg_finish_before (t1 ++ (t2 ++ t3)) t4 [Ev.statsRun] _
        (by simp only [List.append_assoc]) g4 ht ?_
      simp only [phaseIdx] at hp
      simp only [List.length_append]
      rcases hidx with h0 | ⟨hl, h0⟩ | ⟨hl, h0⟩ | ⟨hl, h0⟩ | ⟨hl, h0⟩ <;> omega

def devK2W : Device := ⟨7, "k2", some "p"⟩

def taskK2W : Task := Task.fetchDeviceData devK2W FetchKind.purifier

def trW : List Ev :=
  [Ev.start Phase.main taskK2W, Ev.finish Phase.main taskK2W, Ev.statsRun]

/-- Witness for C2: a concrete one-purifier refresh trace; the stats step at
position 2 is preceded by the finish of the single main operation. -/
theorem C2_witness :
    IsRefreshTrace [devK2W] trW ∧
    ∃ i, i < 2 ∧ trW.get? i = some (Ev.finish Phase.main taskK2W) := by
  have hR : IsRefreshTrace [devK2W] trW := by
    refine ⟨[Ev.start Phase.main taskK2W, Ev.finish Phase.main taskK2W],
      [], [], [], ⟨List.Perm.refl _, ?_⟩, ⟨List.Perm.refl _, ?_⟩,
      ⟨List.Perm.refl _, ?_⟩, ⟨List.Perm.refl _, ?_⟩, rfl⟩
    · intro t ht
      have hm : (prepare_tasks [devK2W]).main = [taskK2W] := by decide
      rw [hm] at ht
      have ht' : t = taskK2W := by simpa using ht
      subst ht'
      exact ⟨0, 1, by omega, rfl, rfl⟩
    · intro t ht
      have hm : (prepare_tasks [devK2W]).records = [] := by decide
      rw [hm] at ht
      exact absurd ht (List.not_mem_nil t)
    · intro t ht
      have hm : (prepare_tasks [devK2W]).media = [] := by decide
      rw [hm] at ht
      exact absurd ht (List.not_mem_nil t)
    · intro t ht
      have hm : (prepare_tasks [devK2W]).live = [] := by decide
      rw [hm] at ht
      exact absurd ht (List.not_mem_nil t)
  refine ⟨hR, ?_⟩
  exact C2_batch_barriers [devK2W] trW hR 2 Ev.statsRun rfl Phase.main
    (by decide) taskK2W (by decide)

/-! ## Litter data model

The pydantic payload classes (litter_container.py) are not part of the
sources under verification; their field shapes are reconstructed from the
attribute accesses in client.py, with nullable attributes as Option.
`PyList` models a payload slot that may hold either a decoded JSON list or a
single decoded object, as `_fetch_device_data` produces either. -/

inductive PyList (α : Type) where
  | list (items : List α)
  | single (x : α)
  deriving DecidableEq

/-- Per-sample pH content: client.py reads
`item["ph"] for item in ...detection_info`.  Each sample is modelled by its
pH reading, a rational standing for the Python float. -/
structure SubContentContent where
  ph_state : Option Int := none
  detection_info : Option (List Rat) := none
  soft_stools : Option Int := none
  urine_bolus : Option Int := none
  hard_stools : Option Int := none
  deriving DecidableEq

structure SubContentItem where
  content : Option SubContentContent := none
  deriving DecidableEq

/-- Nested `content` of a litter record: client.py reads `pet_weight`,
`time_in`, `time_out` (no-camera path) and `pet_voice` (camera path). -/
structure LRContent where
  pet_weight : Option Int := none
  time_in : Option Int := none
  time_out : Option Int := none
  pet_voice : Option Int := none
  deriving DecidableEq

structure LitterRecord where
  pet_id : Int
  timestamp : Option Int := none
  event_id : Option String := none
  content : Option LRContent := none
  sub_content : Option (List SubContentItem) := none
  deriving DecidableEq

/-- Nested `content` of a pet-out-graph entry: client.py reads
`getattr(value.content, "time", None)` and
`getattr(value.content, "pet_weight", None)`. -/
structure PetOutGraphContent where
  time : Option Int := none
  pet_weight : Option Int := none
  deriving DecidableEq

/-- Modelled from the spec: the PetOutGraph payload class lives in
litter_container.py, which is not among the sources; per spec section 4.5 a
pet-out-graph entry carries the pet id, a `time` used for the newer-than
comparison, the toileting event id (the correlation key) and a toilet_time
duration, plus the nested content above (fields matching the client.py
accesses `value.pet_id`, `getattr(value, "time", 0)`,
`getattr(value, "toilet_time", None)`, `value.event_id`, `value.content`). -/
structure PetOutGraph where
  pet_id : Int
  time : Int := 0
  toilet_time : Option Int := none
  event_id : Option String := none
  content : Option PetOutGraphContent := none
  deriving DecidableEq

/-- Modelled from the spec: the LitterStats payload class (litter_container.py,
not among the sources).  None of its fields is ever read by the code under
verification (`device_stats` is written by the stats dispatch but never read),
so only an opaque tag is carried. -/
structure LitterStats where
  tag : Int := 0
  deriving DecidableEq

/-- A stats-category payload as passed to `_handle_device_stats`: either a
LitterStats response (camera-less generations) or a PetOutGraph response
(camera generations), each possibly a list or a single object. -/
inductive StatsData where
  | ls (d : PyList LitterStats)
  | pog (d : PyList PetOutGraph)
  deriving DecidableEq

structure LitterSettings where
  voice : Option Int := none
  ph_detection : Option Int := none
  deriving DecidableEq

/-- The Litter entity (fields read by the embedded code). -/
structure Litter where
  device_nfo : Option Device := none
  settings : Option LitterSettings := none
  device_records : Option (PyList LitterRecord) := none
  device_stats : Option StatsData := none
  device_pet_graph_out : Option StatsData := none
  deriving DecidableEq

/-- The Pet entity: identity plus the derived litter-stats fields
(containers.py class Pet). -/
structure Pet where
  pet_id : Int
  last_litter_usage : Option Int := none
  last_device_used : Option String := none
  last_duration_usage : Option Int := none
  last_event_id : Option String := none
  last_measured_weight : Option Int := none
  yowling_detected : Option Int := none
  abnormal_ph_detected : Option Int := none
  measured_ph : Option Rat := none
  soft_stool_detected : Option Int := none
  last_urination : Option Int := none
  last_defecation : Option Int := none
  deriving DecidableEq

/-! ## Reconciler helpers (client.py static methods) -/

/-- `calculate_duration(start, end)`: 0 when either bound is absent,
otherwise end minus start (no lower bound). -/
def calculate_duration (start stop : Option Int) : Int :=
  match start, stop with
  | some s, some e => e - s
  | _, _ => 0

/-- `set_if_not_none(obj, attr, value)` expressed on the attribute value:
the new value when it is not None, else the current one. -/
def set_if_not_none (value current : Option α) : Option α :=
  match value with
  | some x => some x
  | none => current

/-- Python str.capitalize(): first character upper-cased, the rest
lower-cased (ASCII model). -/
def pyCapitalize (s : String) : String :=
  match s.toList with
  | [] => ""
  | c :: rest => String.mk (c.toUpper :: rest.map Char.toLower)

/-- Python `x or None` on an optional string: empty strings are falsy. -/
def orNone (x : Option String) : Option String :=
  match x with
  | some s => if s = "" then none else some s
  | none => none

/-- The guard `pet.last_litter_usage is None or t > pet.last_litter_usage`
when the comparison operand `t` is known to be an int. -/
def pyNewer (llu : Option Int) (t : Int) : Prop :=
  match llu with
  | none => True
  | some l => l < t

instance instDecPyNewer (llu : Option Int) (t : Int) : Decidable (pyNewer llu t) :=
  match llu with
  | none => isTrue trivial
  | some l => inferInstanceAs (Decidable (l < t))

/-! ## `init_pet_stats` (client.py) -/

def init_pet_stats (pet : Pet) (litter_data : Litter) : Pet :=
  let pet :=
    if pet.last_litter_usage = none ∧ pet.last_device_used = none ∧
        pet.last_duration_usage = none ∧ pet.last_measured_weight = none then
      { pet with
        last_litter_usage := some 0, last_device_used := some "Unknown",
        last_duration_usage := some 0, last_measured_weight := some 0 }
    else pet
  let pet :=
    if pet.yowling_detected = none ∧
        (litter_data.settings.bind fun s => s.voice) = some 1 then
      { pet with yowling_detected := some 0 }
    else pet
  if pet.abnormal_ph_detected = none ∧ pet.measured_ph = none ∧
      pet.soft_stool_detected = none ∧ pet.last_urination = none ∧
      pet.last_defecation = none ∧
      (litter_data.settings.bind fun s => s.ph_detection) = some 1 then
    { pet with
      abnormal_ph_detected := some 0, measured_ph := some 7,
      soft_stool_detected := some 0, last_urination := some 0,
      last_defecation := some 0 }
  else pet

/-! ## `_process_litter_no_camera` (client.py)

The loop guard compares `getattr(stat, "timestamp", 0)` (the attribute
exists on the model, so possibly None) against `pet.last_litter_usage`; when
the latter is set and the record timestamp is None the Python comparison
`None > int` raises a TypeError, modelled with Except. -/

/-- The display-name value written by the no-camera pass:
`device_name.capitalize() if device_name is not None else None`. -/
def noCameraDeviceName (litter_data : Litter) : Option String :=
  (litter_data.device_nfo.bind fun nfo => nfo.device_name).map pyCapitalize

/-- The body of the no-camera loop once its guard holds: four
`set_if_not_none` writes. -/
def no_camera_writes (litter_data : Litter) (pet : Pet) (stat : LitterRecord) : Pet :=
  { pet with
    last_litter_usage := set_if_not_none stat.timestamp pet.last_litter_usage,
    last_measured_weight :=
      set_if_not_none (stat.content.bind fun c => c.pet_weight)
        pet.last_measured_weight,
    last_duration_usage :=
      set_if_not_none (stat.content.map fun c => calculate_duration c.time_in c.time_out)
        pet.last_duration_usage,
    last_device_used :=
      set_if_not_none (noCameraDeviceName litter_data) pet.last_device_used }

/-- One iteration of the `_process_litter_no_camera` loop. -/
def no_camera_step (litter_data : Litter) (pet : Pet) (stat : LitterRecord) :
    Except String Pet :=
  if stat.pet_id = pet.pet_id then
    match pet.last_litter_usage with
    | none => .ok (no_camera_writes litter_data pet stat)
    | some l =>
      match stat.timestamp with
      | some t =>
          if l < t then .ok (no_camera_writes litter_data pet stat) else .ok pet
      | none => .error "TypeError: NoneType int comparison"
  else .ok pet

/-- The `_process_litter_no_camera` loop over the records, threading the pet
through the iterations and propagating a raised TypeError. -/
def no_camera_fold (litter_data : Litter) : Pet → List LitterRecord →
    Except String Pet
  | pet, [] => Except.ok pet
  | pet, stat :: rest =>
      match no_camera_step litter_data pet stat with
      | Except.ok p' => no_camera_fold litter_data p' rest
      | Except.error e => Except.error e

/-- `_process_litter_no_camera(pet, litter_data)`: iterate the
`litter_data.device_records or []` generator.  A single (non-list) object in
the slot is not iterable in Python (TypeError); the typed slot makes the
`isinstance(s, LitterRecord)` filter the identity. -/
def process_litter_no_camera (pet : Pet) (litter_data : Litter) :
    Except String Pet :=
  match litter_data.device_records with
  | some (PyList.list l) => no_camera_fold litter_data pet l
  | some (PyList.single _) => .error "TypeError: object is not iterable"
  | none => .ok pet

/-! ## `_process_litter_camera` (client.py)

Pass 1 scans the pet-out-graph entries; pass 2 scans the device records
correlated by event id.  Sequential in-place attribute writes on distinct
fields are expressed as a single record update. -/

/-- The display-name value written by the camera pass:
`device_name.capitalize() if device_name else None` (truthiness, so the
empty string also yields None). -/
def cameraDeviceName (litter_data : Litter) : Option String :=
  match litter_data.device_nfo.bind fun nfo => nfo.device_name with
  | some dn => if dn = "" then none else some (pyCapitalize dn)
  | none => none

/-- Body of the pass-1 loop once its guard holds: five `set_if_not_none`
writes (note the guard compares `value.time` but the usage write takes
`value.content.time`). -/
def camera_graph_writes (litter_data : Litter) (pet : Pet) (value : PetOutGraph) : Pet :=
  { pet with
    last_litter_usage :=
      set_if_not_none (value.content.bind fun c => c.time) pet.last_litter_usage,
    last_measured_weight :=
      set_if_not_none (value.content.bind fun c => c.pet_weight)
        pet.last_measured_weight,
    last_duration_usage :=
      set_if_not_none value.toilet_time pet.last_duration_usage,
    last_device_used :=
      set_if_not_none (cameraDeviceName litter_data) pet.last_device_used,
    last_event_id := set_if_not_none (orNone value.event_id) pet.last_event_id }

/-- One iteration of the pass-1 (pet-out-graph) loop. -/
def camera_graph_step (litter_data : Litter) (pet : Pet) (value : PetOutGraph) : Pet :=
  if value.pet_id = pet.pet_id ∧ pyNewer pet.last_litter_usage value.time then
    camera_graph_writes litter_data pet value
  else pet

/-- `statistics.mean` over the per-sample pH readings (guarded non-empty at
the call site). -/
def listMean (l : List Rat) : Rat :=
  l.sum / (l.length : Rat)

/-- One iteration of the pass-2 (device-records) loop: matching records
(pet id and event id both equal) rewrite the health fields; `measured_ph`
is set to None whenever the detection-info list is absent or empty, and
`yowling_detected` takes `content.pet_voice` verbatim (0 when content is
absent). -/
def camera_record_step (pet : Pet) (value : LitterRecord) : Pet :=
  if value.pet_id = pet.pet_id ∧ value.event_id = pet.last_event_id then
    let c0 : Option SubContentContent :=
      match value.sub_content with
      | some (item :: _) => item.content
      | _ => none
    { pet with
      yowling_detected :=
        (match value.content with
         | some c => c.pet_voice
         | none => some 0),
      abnormal_ph_detected :=
        (match c0 with
         | some c => c.ph_state
         | none => pet.abnormal_ph_detected),
      measured_ph :=
        (match c0 with
         | some c =>
             match c.detection_info with
             | some (x :: xs) => some (listMean (x :: xs))
             | _ => none
         | none => none),
      soft_stool_detected :=
        (match c0 with
         | some c => c.soft_stools
         | none => pet.soft_stool_detected),
      last_urination :=
        (match c0 with
         | some c =>
             if c.urine_bolus = some 1 ∧ value.timestamp ≠ none then
               value.timestamp
             else pet.last_urination
         | none => pet.last_urination),
      last_defecation :=
        (match c0 with
         | some c =>
             if c.hard_stools = some 1 ∧ value.timestamp ≠ none then
               value.timestamp
             else pet.last_defecation
         | none => pet.last_defecation) }
  else pet

/-- `_process_litter_camera(pet, litter_data)`: non-list slots are replaced
by empty lists before iterating (the `isinstance(..., list)` checks).  The
pet-graph slot holds a PetOutGraph list in every flow of the embedded
pipeline; any other shape is not a Python list of graph entries and is
likewise treated as empty. -/
def process_litter_camera (pet : Pet) (litter_data : Litter) : Pet :=
  let device_records :=
    match litter_data.device_records with
    | some (PyList.list l) => l
    | _ => []
  let device_pet_graph :=
    match litter_data.device_pet_graph_out with
    | some (StatsData.pog (PyList.list l)) => l
    | _ => []
  let pet := device_pet_graph.foldl (camera_graph_step litter_data) pet
  device_records.foldl camera_record_step pet

/-! ## `populate_pet_stats` (client.py) -/

/-- `populate_pet_stats(litter_data)` acting on the list of known pets: for
each pet, the T3/T4 generations run init plus the no-camera pass, T5/T6 run
init plus the camera pass, and any other generation (T7 included) does
nothing for that pet.  A missing device_nfo returns immediately. -/
def populate_pet_stats (pets : List Pet) (litter_data : Litter) :
    Except String (List Pet) :=
  match litter_data.device_nfo with
  | none => .ok pets
  | some nfo =>
      pets.mapM fun pet =>
        if nfo.device_type ∈ [T3, T4] then
          process_litter_no_camera (init_pet_stats pet litter_data) litter_data
        else if nfo.device_type ∈ [T5, T6] then
          .ok (process_litter_camera (init_pet_stats pet litter_data) litter_data)
        else .ok pet

/-! ## Stats dispatch (client.py `_handle_device_stats`)

The entity map `self.petkit_entities` is modelled as a function from ids;
non-litter entity variants carry no payload because no embedded operation
reads them. -/

inductive Entity where
  | feeder : Entity
  | litter (l : Litter) : Entity
  | waterFountain : Entity
  | purifier : Entity
  | pet (p : Pet) : Entity
  deriving DecidableEq

def EntityMap : Type := Int → Option Entity

/-- `_handle_device_stats(device, device_data, device_type)`: when the entity
for the device id is a Litter, store the payload in `device_stats` for a
camera-less sub-type and in `device_pet_graph_out` for a camera sub-type;
otherwise log a warning and leave the map untouched. -/
def handle_device_stats (entities : EntityMap) (device : Device)
    (device_data : StatsData) : EntityMap :=
  match entities device.device_id with
  | some (Entity.litter entity) =>
      let entity :=
        if device.device_type ∈ LITTER_NO_CAMERA then
          { entity with device_stats := some device_data }
        else entity
      let entity :=
        if device.device_type ∈ LITTER_WITH_CAMERA then
          { entity with device_pet_graph_out := some device_data }
        else entity
      fun i => if i = device.device_id then some (Entity.litter entity) else entities i
  | _ => entities

/-! ## Fetch response normalization (client.py `_fetch_device_data`)

The decoded JSON body and the normalization that follows the request:
first the T6 workaround (`if isinstance(response, dict) and
response.get("list", None): response = response.get("list", [])`, a
truthiness test), then the list/dict/other triage. -/

inductive PyVal where
  | obj (fields : List (String × PyVal))
  | arr (items : List PyVal)
  | pstr (s : String)
  | pint (n : Int)
  | pnone

/-- Python truthiness of a decoded JSON value. -/
def pyTruthy : PyVal → Bool
  | .obj fields => !fields.isEmpty
  | .arr items => !items.isEmpty
  | .pstr s => !(s == "")
  | .pint n => !(n == 0)
  | .pnone => false

/-- dict.get(key, None). -/
def dictGet (fields : List (String × PyVal)) (key : String) : Option PyVal :=
  (fields.find? fun kv => kv.1 == key).map fun kv => kv.2

/-- Outcome of the shape triage: one typed payload per list element, one
typed payload for an object, or a logged fatal error abandoning the
operation. -/
inductive Normalized where
  | many (items : List PyVal)
  | one (fields : List (String × PyVal))
  | fatal

def fetch_normalize (response : PyVal) : Normalized :=
  let response :=
    match response with
    | .obj fields =>
        match dictGet fields "list" with
        | some v => if pyTruthy v then v else .obj fields
        | none => .obj fields
    | r => r
  match response with
  | .arr items => .many items
  | .obj fields => .one fields
  | _ => .fatal

/-- The effect of one `_fetch_device_data` call on the entity map, given the
decoded response and the data handler that the typed payloads would be
dispatched to: a fatal normalization outcome returns before any dispatch, so
the map is untouched and the remaining operations of the cycle are
unaffected. -/
def apply_fetch (entities : EntityMap) (response : PyVal)
    (handleMany : EntityMap → List PyVal → EntityMap)
    (handleOne : EntityMap → List (String × PyVal) → EntityMap) : EntityMap :=
  match fetch_normalize response with
  | .many items => handleMany entities items
  | .one fields => handleOne entities fields
  | .fatal => entities

/-! ## Claims C7, C8, C9, C10 -/

theorem lnc_not_lwc {s : String} (h : s ∈ LITTER_NO_CAMERA) :
    s ∉ LITTER_WITH_CAMERA := by
  fin_cases h <;> decide

theorem lwc_not_lnc {s : String} (h : s ∈ LITTER_WITH_CAMERA) :
    s ∉ LITTER_NO_CAMERA := by
  fin_cases h <;> decide

/-- Claim C7: the stats dispatch stores the payload in `device_stats` for a
camera-less litter sub-type and in `device_pet_graph_out` for a
camera-equipped one when the existing entity is a Litter (other ids
untouched); when the entity is absent or not a Litter, the dispatch drops the
payload and the entity map is left entirely unchanged. -/
theorem C7_stats_dispatch (entities : EntityMap) (device : Device)
    (data : StatsData) :
    (∀ L, entities device.device_id = some (Entity.litter L) →
      (device.device_type ∈ LITTER_NO_CAMERA →
        handle_device_stats entities device data device.device_id =
          some (Entity.litter { L with device_stats := some data })) ∧
      (device.device_type ∈ LITTER_WITH_CAMERA →
        handle_device_stats entities device data device.device_id =
          some (Entity.litter { L with device_pet_graph_out := some data })) ∧
      (∀ i, i ≠ device.device_id →
        handle_device_stats entities device data i = entities i)) ∧
    ((∀ L, entities device.device_id ≠ some (Entity.litter L)) →
      handle_device_stats entities device data = entities) := by
  constructor
  · intro L hL
    refine ⟨fun h1 => ?_, fun h2 => ?_, fun i hi => ?_⟩
    · simp [handle_device_stats, hL, h1, lnc_not_lwc h1]
    · simp [handle_device_stats, hL, h2, lwc_not_lnc h2]
    · simp [handle_device_stats, hL, hi]
  · intro hne
    funext i
    unfold handle_device_stats
    cases hcase : entities device.device_id with
    | none => rfl
    | some e =>
        cases e with
        | litter l => exact absurd hcase (hne l)
        | feeder => rfl
        | waterFountain => rfl
        | purifier => rfl
        | pet p => rfl

def litEmptyW : Litter := {}

def devT3W : Device := ⟨3, "t3", some "lb"⟩

def entMapW : EntityMap := fun i => if i = 3 then some (Entity.litter litEmptyW) else none

/-- Witness for C7: a concrete t3 dispatch onto a map holding a Litter at
id 3. -/
theorem C7_witness :
    handle_device_stats entMapW devT3W (StatsData.ls (PyList.list [])) 3 =
      some (Entity.litter
        { litEmptyW with device_stats := some (StatsData.ls (PyList.list [])) }) :=
  ((C7_stats_dispatch entMapW devT3W (StatsData.ls (PyList.list []))).1
    litEmptyW rfl).1 (by decide)

/-- Claim C8 counterexample: the decoded object containing the nested list
field "list" whose value is the empty list is NOT unwrapped to that list
(the source tests the field's truthiness, and the empty list is falsy); it
is instead treated as a bare object payload. -/
theorem C8_counterexample :
    fetch_normalize (PyVal.obj [("list", PyVal.arr [])]) =
      Normalized.one [("list", PyVal.arr [])] ∧
    fetch_normalize (PyVal.obj [("list", PyVal.arr [])]) ≠
      Normalized.many [] := by
  refine ⟨rfl, fun h => ?_⟩
  exact Normalized.noConfusion h

/-- Claim C8 (amended): an object whose nested "list" field holds a
non-empty list is unwrapped to that list and yields one payload per element;
a bare list yields one payload per element; an object without a "list" field,
or with a falsy one, yields a single object payload; any other decoded shape
is a fatal normalization error, and a fatal outcome leaves the entity map
untouched (the operation returns before any dispatch, so the cycle continues
for the other devices). -/
theorem C8_amended_normalize :
    (∀ fields x xs, dictGet fields "list" = some (PyVal.arr (x :: xs)) →
      fetch_normalize (PyVal.obj fields) = Normalized.many (x :: xs)) ∧
    (∀ items, fetch_normalize (PyVal.arr items) = Normalized.many items) ∧
    (∀ fields, dictGet fields "list" = none →
      fetch_normalize (PyVal.obj fields) = Normalized.one fields) ∧
    (∀ fields v, dictGet fields "list" = some v → pyTruthy v = false →
      fetch_normalize (PyVal.obj fields) = Normalized.one fields) ∧
    (∀ s, fetch_normalize (PyVal.pstr s) = Normalized.fatal) ∧
    (∀ n, fetch_normalize (PyVal.pint n) = Normalized.fatal) ∧
    (fetch_normalize PyVal.pnone = Normalized.fatal) ∧
    (∀ entities handleMany handleOne response,
      fetch_normalize response = Normalized.fatal →
      apply_fetch entities response handleMany handleOne = entities) := by
  refine ⟨?_, fun items => rfl, ?_, ?_, fun s => rfl, fun n => rfl, rfl, ?_⟩
  · intro fields x xs h
    simp [fetch_normalize, h, pyTruthy]
  · intro fields h
    simp [fetch_normalize, h]
  · intro fields v h hf
    simp [fetch_normalize, h, hf]
  · intro entities hm ho response h
    simp [apply_fetch, h]

/-- Witness for C8: a wrapped non-empty list is unwrapped. -/
theorem C8_witness :
    fetch_normalize (PyVal.obj [("list", PyVal.arr [PyVal.pint 1])]) =
      Normalized.many [PyVal.pint 1] :=
  C8_amended_normalize.1 [("list", PyVal.arr [PyVal.pint 1])] (PyVal.pint 1) [] rfl

theorem mapM_loop_ok_id (l : List Pet) : ∀ acc : List Pet,
    List.mapM.loop (fun x => (Except.ok x : Except String Pet)) l acc =
      Except.ok (acc.reverse ++ l) := by
  induction l with
  | nil =>
      intro acc
      simp only [List.mapM.loop, List.append_nil]
      rfl
  | cons a t ih =>
      intro acc
      rw [show List.mapM.loop (fun x => (Except.ok x : Except String Pet)) (a :: t) acc =
            List.mapM.loop (fun x => (Except.ok x : Except String Pet)) t (a :: acc) from rfl,
        ih (a :: acc)]
      simp

theorem mapM_ok_id (l : List Pet) :
    l.mapM (fun x => (Except.ok x : Except String Pet)) = Except.ok l := by
  rw [show l.mapM (fun x => (Except.ok x : Except String Pet)) =
        List.mapM.loop (fun x => (Except.ok x : Except String Pet)) l [] from rfl,
    mapM_loop_ok_id l []]
  rfl

/-- Claim C9: a litter entity whose device type is t7 runs neither the init
step nor any reconciler pass (every pet is returned exactly as it was),
although t7 is in the camera litter set and so is planned and fetched like
the other camera litter boxes (main, records plus pet-out-graph, and the two
camera ops). -/
theorem C9_t7_no_stats (pets : List Pet) (litter_data : Litter) (nfo : Device)
    (hnfo : litter_data.device_nfo = some nfo)
    (htype : nfo.device_type = "t7") :
    populate_pet_stats pets litter_data = Except.ok pets ∧
    "t7" ∈ LITTER_WITH_CAMERA ∧
    ∀ d : Device, d.device_type = "t7" →
      deviceOps d =
        ⟨[Task.fetchDeviceData d FetchKind.litter],
         [Task.fetchDeviceData d FetchKind.litterRecord,
          Task.fetchDeviceData d FetchKind.petOutGraph],
         [Task.fetchDeviceData d FetchKind.liveFeed],
         [Task.fetchMedia d]⟩ := by
  refine ⟨?_, by decide, ?_⟩
  · have h34 : ("t7" : String) ∉ [T3, T4] := by decide
    have h56 : ("t7" : String) ∉ [T5, T6] := by decide
    simp only [populate_pet_stats, hnfo, htype, if_neg h34, if_neg h56]
    exact mapM_ok_id pets
  · intro d hd
    dsimp only [deviceOps, prepareStep, add_lb_task_by_type]
    rw [hd]
    rfl

def litT7W : Litter := { device_nfo := some ⟨11, "t7", some "lb7"⟩ }

def petPlainW : Pet := { pet_id := 1 }

/-- Witness for C9: populate_pet_stats on a concrete t7 litter entity. -/
theorem C9_witness :
    populate_pet_stats [petPlainW] litT7W = Except.ok [petPlainW] := by
  exact (C9_t7_no_stats [petPlainW] litT7W ⟨11, "t7", some "lb7"⟩ rfl rfl).1

/-- Claim C10: calculate_duration is 0 when either bound is None and
end minus start otherwise, with no lower bound; a triggering no-camera
record whose content has time_out less than time_in sets the pet's
last_duration_usage to a negative integer. -/
theorem C10_negative_duration :
    (∀ s e : Option Int, s = none ∨ e = none → calculate_duration s e = 0) ∧
    (∀ a b : Int, calculate_duration (some a) (some b) = b - a) ∧
    (∀ (litter_data : Litter) (pet : Pet) (stat : LitterRecord)
        (c : LRContent) (a b : Int),
      stat.pet_id = pet.pet_id → pet.last_litter_usage = none →
      stat.content = some c → c.time_in = some a → c.time_out = some b →
      b < a →
      ∃ pet', no_camera_step litter_data pet stat = Except.ok pet' ∧
        pet'.last_duration_usage = some (b - a) ∧ b - a < 0) := by
  refine ⟨?_, fun a b => rfl, ?_⟩
  · rintro s e (rfl | rfl)
    · rfl
    · cases s <;> rfl
  · intro litter_data pet stat c a b hpid hllu hc hin hout hba
    refine ⟨no_camera_writes litter_data pet stat, ?_, ?_, by omega⟩
    · simp [no_camera_step, hpid, hllu]
    · simp [no_camera_writes, hc, hin, hout, set_if_not_none, calculate_duration]

def statC10W : LitterRecord :=
  { pet_id := 1, timestamp := some 5,
    content := some { time_in := some 10, time_out := some 3 } }

def petC10W : Pet := { pet_id := 1 }

/-- Witness for C10: a concrete record with time_out 3 and time_in 10 yields
duration -7. -/
theorem C10_witness :
    ∃ pet', no_camera_step {} petC10W statC10W = Except.ok pet' ∧
      pet'.last_duration_usage = some (-7) ∧ (-7 : Int) < 0 := by
  have h := C10_negative_duration.2.2 {} petC10W statC10W
    { time_in := some 10, time_out := some 3 } 10 3 rfl rfl rfl rfl rfl (by omega)
  obtain ⟨p', h1, h2, h3⟩ := h
  refine ⟨p', h1, ?_, by omega⟩
  rw [h2]
  norm_num

/-! ## Claim C5: no-camera order-independence -/

theorem no_camera_step_eval_none {litter_data : Litter} {pet : Pet}
    {stat : LitterRecord} (hp : stat.pet_id = pet.pet_id)
    (hl : pet.last_litter_usage = none) :
    no_camera_step litter_data pet stat =
      Except.ok (no_camera_writes litter_data pet stat) := by
  simp [no_camera_step, hp, hl]

theorem no_camera_step_eval_newer {litter_data : Litter} {pet : Pet}
    {stat : LitterRecord} {l t : Int} (hp : stat.pet_id = pet.pet_id)
    (hl : pet.last_litter_usage = some l) (ht : stat.timestamp = some t)
    (hlt : l < t) :
    no_camera_step litter_data pet stat =
      Except.ok (no_camera_writes litter_data pet stat) := by
  simp [no_camera_step, hp, hl, ht, hlt]

theorem no_camera_step_eval_stale {litter_data : Litter} {pet : Pet}
    {stat : LitterRecord} {l t : Int}
    (hl : pet.last_litter_usage = some l) (ht : stat.timestamp = some t)
    (hge : ¬ l < t) :
    no_camera_step litter_data pet stat = Except.ok pet := by
  by_cases hp : stat.pet_id = pet.pet_id
  · simp [no_camera_step, hp, hl, ht, hge]
  · simp [no_camera_step, hp]

theorem no_camera_writes_llu {litter_data : Litter} {pet : Pet}
    {stat : LitterRecord} {t : Int} (ht : stat.timestamp = some t) :
    (no_camera_writes litter_data pet stat).last_litter_usage = some t := by
  simp [no_camera_writes, ht, set_if_not_none]

theorem no_camera_writes_pet_id {litter_data : Litter} {pet : Pet}
    {stat : LitterRecord} :
    (no_camera_writes litter_data pet stat).pet_id = pet.pet_id := rfl

theorem fold_pair_result {lit : Litter} {p qA qB : Pet} {a b : LitterRecord}
    (s1 : no_camera_step lit p a = Except.ok qA)
    (s2 : no_camera_step lit qA b = Except.ok qB) :
    no_camera_fold lit p [a, b] = Except.ok qB := by
  simp only [no_camera_fold, s1, s2]

theorem fold_pair_noop {lit : Litter} {q : Pet} {a b : LitterRecord}
    {L La Lb : Int} (hq : q.last_litter_usage = some L)
    (hta : a.timestamp = some La) (htb : b.timestamp = some Lb)
    (ha : ¬ L < La) (hb : ¬ L < Lb) :
    no_camera_fold lit q [a, b] = Except.ok q :=
  fold_pair_result (no_camera_step_eval_stale hq hta ha)
    (no_camera_step_eval_stale hq htb hb)

def recA5 : LitterRecord := { pet_id := 4, timestamp := some 1 }

def recB5 : LitterRecord := { pet_id := 4, timestamp := some 2 }

def petC5cex : Pet := { pet_id := 4, last_litter_usage := some 10 }

def lit5a : Litter := { device_records := some (PyList.list [recA5, recB5]) }

def lit5b : Litter := { device_records := some (PyList.list [recB5, recA5]) }

/-- Claim C5 counterexample: a pet whose lastLitterUsage is already 10 and
two matching records with timestamps 1 < 2; after the pass (in either order)
lastLitterUsage is still 10, not T2 = 2, refuting the claim as stated for
every pet. -/
theorem C5_counterexample :
    process_litter_no_camera petC5cex lit5a = Except.ok petC5cex ∧
    process_litter_no_camera petC5cex lit5b = Except.ok petC5cex ∧
    petC5cex.last_litter_usage = some 10 ∧ (10 : Int) ≠ 2 ∧ (1 : Int) < 2 := by
  refine ⟨rfl, rfl, rfl, by decide, by decide⟩

/-- Claim C5 (amended): for two matching records with present timestamps
T1 < T2, provided the pet's lastLitterUsage starts unset or below T2, the
pass leaves lastLitterUsage equal to T2 in either order; a record whose
timestamp equals the current lastLitterUsage never triggers an overwrite
(strict greater-than), and re-running the pass on the same records changes
nothing. -/
theorem C5_amended_monotone (litter1 litter2 : Litter) (pet : Pet)
    (r1 r2 : LitterRecord) (T1 T2 : Int)
    (h1 : r1.pet_id = pet.pet_id) (h2 : r2.pet_id = pet.pet_id)
    (ht1 : r1.timestamp = some T1) (ht2 : r2.timestamp = some T2)
    (hlt : T1 < T2)
    (hrecs1 : litter1.device_records = some (PyList.list [r1, r2]))
    (hrecs2 : litter2.device_records = some (PyList.list [r2, r1]))
    (hinit : pyNewer pet.last_litter_usage T2) :
    (∃ q1, process_litter_no_camera pet litter1 = Except.ok q1 ∧
       q1.last_litter_usage = some T2 ∧
       process_litter_no_camera q1 litter1 = Except.ok q1) ∧
    (∃ q2, process_litter_no_camera pet litter2 = Except.ok q2 ∧
       q2.last_litter_usage = some T2) ∧
    (∀ (q : Pet) (stat : LitterRecord) (L : Int),
       stat.timestamp = some L → q.last_litter_usage = some L →
       no_camera_step litter1 q stat = Except.ok q) := by
  have e1 : ∀ q : Pet, process_litter_no_camera q litter1 =
      no_camera_fold litter1 q [r1, r2] := by
    intro q; unfold process_litter_no_camera; rw [hrecs1]
  have e2 : ∀ q : Pet, process_litter_no_camera q litter2 =
      no_camera_fold litter2 q [r2, r1] := by
    intro q; unfold process_litter_no_camera; rw [hrecs2]
  have tie : ∀ (q : Pet) (stat : LitterRecord) (L : Int),
      stat.timestamp = some L → q.last_litter_usage = some L →
      no_camera_step litter1 q stat = Except.ok q := by
    intro q stat L ht hq
    exact no_camera_step_eval_stale hq ht (by omega)
  refine ⟨?_, ?_, tie⟩
  all_goals rcases hllu : pet.last_litter_usage with _ | l
  -- order [r1, r2], lastLitterUsage unset
  · have s1 := @no_camera_step_eval_none litter1 pet r1 h1 hllu
    have hA1 : (no_camera_writes litter1 pet r1).last_litter_usage = some T1 :=
      no_camera_writes_llu ht1
    have s2 := @no_camera_step_eval_newer litter1 (no_camera_writes litter1 pet r1)
      r2 T1 T2 (by rw [no_camera_writes_pet_id]; exact h2) hA1 ht2 hlt
    have hq1 : (no_camera_writes litter1 (no_camera_writes litter1 pet r1) r2).last_litter_usage = some T2 :=
      no_camera_writes_llu ht2
    refine ⟨_, by rw [e1]; exact fold_pair_result s1 s2, hq1, ?_⟩
    rw [e1]
    exact fold_pair_noop hq1 ht1 ht2 (by omega) (by omega)
  -- order [r1, r2], lastLitterUsage set below T2
  · have hl2 : l < T2 := by rw [hllu] at hinit; exact hinit
    by_cases hT1 : l < T1
    · have s1 := @no_camera_step_eval_newer litter1 pet r1 l T1 h1 hllu ht1 hT1
      have hA1 : (no_camera_writes litter1 pet r1).last_litter_usage = some T1 :=
        no_camera_writes_llu ht1
      have s2 := @no_camera_step_eval_newer litter1 (no_camera_writes litter1 pet r1)
        r2 T1 T2 (by rw [no_camera_writes_pet_id]; exact h2) hA1 ht2 hlt
      have hq1 : (no_camera_writes litter1 (no_camera_writes litter1 pet r1) r2).last_litter_usage = some T2 :=
        no_camera_writes_llu ht2
      refine ⟨_, by rw [e1]; exact fold_pair_result s1 s2, hq1, ?_⟩
      rw [e1]
      exact fold_pair_noop hq1 ht1 ht2 (by omega) (by omega)
    · have s1 := @no_camera_step_eval_stale litter1 pet r1 l T1 hllu ht1 hT1
      have s2 := @no_camera_step_eval_newer litter1 pet r2 l T2 h2 hllu ht2 hl2
      have hq1 : (no_camera_writes litter1 pet r2).last_litter_usage = some T2 :=
        no_camera_writes_llu ht2
      refine ⟨_, by rw [e1]; exact fold_pair_result s1 s2, hq1, ?_⟩
      rw [e1]
      exact fold_pair_noop hq1 ht1 ht2 (by omega) (by omega)
  -- order [r2, r1], lastLitterUsage unset
  · have s1 := @no_camera_step_eval_none litter2 pet r2 h2 hllu
    have hB1 : (no_camera_writes litter2 pet r2).last_litter_usage = some T2 :=
      no_camera_writes_llu ht2
    have s2 := @no_camera_step_eval_stale litter2 (no_camera_writes litter2 pet r2)
      r1 T2 T1 hB1 ht1 (by omega)
    exact ⟨_, by rw [e2]; exact fold_pair_result s1 s2, hB1⟩
  -- order [r2, r1], lastLitterUsage set below T2
  · have hl2 : l < T2 := by rw [hllu] at hinit; exact hinit
    have s1 := @no_camera_step_eval_newer litter2 pet r2 l T2 h2 hllu ht2 hl2
    have hB1 : (no_camera_writes litter2 pet r2).last_litter_usage = some T2 :=
      no_camera_writes_llu ht2
    have s2 := @no_camera_step_eval_stale litter2 (no_camera_writes litter2 pet r2)
      r1 T2 T1 hB1 ht1 (by omega)
    exact ⟨_, by rw [e2]; exact fold_pair_result s1 s2, hB1⟩

def pet5W : Pet := { pet_id := 4 }

/-- Witness for C5 (amended): a fresh pet and records with timestamps 1 and
2 end at lastLitterUsage 2, and a re-run changes nothing. -/
theorem C5_witness :
    ∃ q1, process_litter_no_camera pet5W lit5a = Except.ok q1 ∧
      q1.last_litter_usage = some 2 ∧
      process_litter_no_camera q1 lit5a = Except.ok q1 :=
  (C5_amended_monotone lit5a lit5b pet5W recA5 recB5 1 2 rfl rfl rfl rfl
    (by omega) rfl rfl trivial).1

/-! ## Claim C4: derived-field monotonicity -/

def graphC4 : PetOutGraph := { pet_id := 2, time := 5, event_id := some "E1" }

def subItemDet : SubContentItem :=
  { content := some { ph_state := some 1, detection_info := some [7],
                      soft_stools := some 0 } }

def subItemNoDet : SubContentItem :=
  { content := some { ph_state := some 1, detection_info := none,
                      soft_stools := some 0 } }

def recC4a : LitterRecord :=
  { pet_id := 2, timestamp := some 100, event_id := some "E1",
    sub_content := some [subItemDet] }

def recC4b : LitterRecord :=
  { pet_id := 2, timestamp := some 50, event_id := some "E1",
    sub_content := some [subItemNoDet] }

def petC4 : Pet := { pet_id := 2 }

def litC4one : Litter :=
  { device_pet_graph_out := some (StatsData.pog (PyList.list [graphC4])),
    device_records := some (PyList.list [recC4a]) }

def litC4two : Litter :=
  { device_pet_graph_out := some (StatsData.pog (PyList.list [graphC4])),
    device_records := some (PyList.list [recC4a, recC4b]) }

/-- Claim C4 counterexample: in the camera pass, the record recC4a (timestamp
100, with detection samples) sets measuredPh to 7, and the additional record
recC4b — same correlated event, OLDER timestamp 50, no detection info —
then reverts measuredPh to unset: a derived field set from an event is
overwritten from an older event and reverted to unset within one pass. -/
theorem C4_counterexample :
    (process_litter_camera petC4 litC4one).measured_ph = some 7 ∧
    (process_litter_camera petC4 litC4two).measured_ph = none ∧
    (50 : Int) < 100 := by
  have hrun1 : (process_litter_camera petC4 litC4one).measured_ph =
      some (listMean [7]) := rfl
  refine ⟨?_, rfl, by decide⟩
  rw [hrun1]
  norm_num [listMean]

/-- lastLitterUsage either keeps its value or advances to a strictly newer
one (or is set for the first time when unset). -/
def LluAdvance (a b : Option Int) : Prop :=
  a = b ∨ ∃ t, b = some t ∧ (a = none ∨ ∃ l, a = some l ∧ l < t)

theorem lluAdvance_trans {a b c : Option Int} (h1 : LluAdvance a b)
    (h2 : LluAdvance b c) : LluAdvance a c := by
  rcases h1 with rfl | ⟨t, rfl, h1⟩
  · exact h2
  · rcases h2 with rfl | ⟨t', rfl, h2⟩
    · exact Or.inr ⟨t, rfl, h1⟩
    · rcases h2 with h2 | ⟨l, hl, hlt⟩
      · exact absurd h2 (Option.some_ne_none t)
      · obtain rfl : t = l := Option.some.inj hl
        refine Or.inr ⟨t', rfl, ?_⟩
        rcases h1 with h1 | ⟨l', hl', hlt'⟩
        · exact Or.inl h1
        · exact Or.inr ⟨l', hl', by omega⟩

theorem set_if_not_none_isSome {v cur : Option α} (h : cur.isSome) :
    (set_if_not_none v cur).isSome := by
  cases v <;> simp [set_if_not_none] <;> exact h

theorem no_camera_step_eval_err {litter_data : Litter} {pet : Pet}
    {stat : LitterRecord} {l : Int} (hp : stat.pet_id = pet.pet_id)
    (hl : pet.last_litter_usage = some l) (ht : stat.timestamp = none) :
    no_camera_step litter_data pet stat =
      Except.error "TypeError: NoneType int comparison" := by
  simp [no_camera_step, hp, hl, ht]

theorem no_camera_step_eval_skip {litter_data : Litter} {pet : Pet}
    {stat : LitterRecord} (hp : ¬ stat.pet_id = pet.pet_id) :
    no_camera_step litter_data pet stat = Except.ok pet := by
  simp [no_camera_step, hp]

theorem no_camera_step_advance {lit : Litter} {p p' : Pet}
    {stat : LitterRecord} (h : no_camera_step lit p stat = Except.ok p') :
    LluAdvance p.last_litter_usage p'.last_litter_usage ∧
    (p.last_measured_weight.isSome → p'.last_measured_weight.isSome) ∧
    (p.last_duration_usage.isSome → p'.last_duration_usage.isSome) ∧
    (p.last_device_used.isSome → p'.last_device_used.isSome) := by
  by_cases hp : stat.pet_id = p.pet_id
  · cases hllu : p.last_litter_usage with
    | none =>
        rw [no_camera_step_eval_none hp hllu] at h
        obtain rfl := Except.ok.inj h
        refine ⟨?_, fun hh => set_if_not_none_isSome hh,
          fun hh => set_if_not_none_isSome hh,
          fun hh => set_if_not_none_isSome hh⟩
        cases ht : stat.timestamp with
        | none =>
            exact Or.inl (by simp [no_camera_writes, ht, set_if_not_none, hllu])
        | some t => exact Or.inr ⟨t, no_camera_writes_llu ht, Or.inl rfl⟩
    | some l =>
        cases ht : stat.timestamp with
        | none =>
            rw [no_camera_step_eval_err hp hllu ht] at h
            exact absurd h (by simp)
        | some t =>
            by_cases hlt : l < t
            · rw [no_camera_step_eval_newer hp hllu ht hlt] at h
              obtain rfl := Except.ok.inj h
              exact ⟨Or.inr ⟨t, no_camera_writes_llu ht, Or.inr ⟨l, rfl, hlt⟩⟩,
                fun hh => set_if_not_none_isSome hh,
                fun hh => set_if_not_none_isSome hh,
                fun hh => set_if_not_none_isSome hh⟩
            · rw [no_camera_step_eval_stale hllu ht hlt] at h
              obtain rfl := Except.ok.inj h
              exact ⟨Or.inl hllu.symm, id, id, id⟩
  · rw [no_camera_step_eval_skip hp] at h
    obtain rfl := Except.ok.inj h
    exact ⟨Or.inl rfl, id, id, id⟩

theorem no_camera_fold_advance (lit : Litter) (l : List LitterRecord) :
    ∀ (p p' : Pet), no_camera_fold lit p l = Except.ok p' →
      LluAdvance p.last_litter_usage p'.last_litter_usage ∧
      (p.last_measured_weight.isSome → p'.last_measured_weight.isSome) ∧
      (p.last_duration_usage.isSome → p'.last_duration_usage.isSome) ∧
      (p.last_device_used.isSome → p'.last_device_used.isSome) := by
  induction l with
  | nil =>
      intro p p' h
      obtain rfl : p = p' := by simpa [no_camera_fold] using h
      exact ⟨Or.inl rfl, id, id, id⟩
  | cons a t ih =>
      intro p p' h
      unfold no_camera_fold at h
      cases hs : no_camera_step lit p a with
      | error e => rw [hs] at h; exact absurd h (by simp)
      | ok q =>
          rw [hs] at h
          have h1 := no_camera_step_advance hs
          have h2 := ih q p' h
          exact ⟨lluAdvance_trans h1.1 h2.1,
            fun hh => h2.2.1 (h1.2.1 hh),
            fun hh => h2.2.2.1 (h1.2.2.1 hh),
            fun hh => h2.2.2.2 (h1.2.2.2 hh)⟩

theorem camera_graph_step_preserve (lit : Litter) (p : Pet) (v : PetOutGraph) :
    (p.last_litter_usage.isSome →
      (camera_graph_step lit p v).last_litter_usage.isSome) ∧
    (p.last_measured_weight.isSome →
      (camera_graph_step lit p v).last_measured_weight.isSome) ∧
    (p.last_duration_usage.isSome →
      (camera_graph_step lit p v).last_duration_usage.isSome) ∧
    (p.last_device_used.isSome →
      (camera_graph_step lit p v).last_device_used.isSome) ∧
    (p.last_event_id.isSome →
      (camera_graph_step lit p v).last_event_id.isSome) := by
  unfold camera_graph_step
  split_ifs with hg
  · exact ⟨fun h => set_if_not_none_isSome h, fun h => set_if_not_none_isSome h,
      fun h => set_if_not_none_isSome h, fun h => set_if_not_none_isSome h,
      fun h => set_if_not_none_isSome h⟩
  · exact ⟨id, id, id, id, id⟩

theorem graph_fold_preserve (lit : Litter) (l : List PetOutGraph) :
    ∀ p : Pet,
      (p.last_litter_usage.isSome →
        (l.foldl (camera_graph_step lit) p).last_litter_usage.isSome) ∧
      (p.last_measured_weight.isSome →
        (l.foldl (camera_graph_step lit) p).last_measured_weight.isSome) ∧
      (p.last_duration_usage.isSome →
        (l.foldl (camera_graph_step lit) p).last_duration_usage.isSome) ∧
      (p.last_device_used.isSome →
        (l.foldl (camera_graph_step lit) p).last_device_used.isSome) ∧
      (p.last_event_id.isSome →
        (l.foldl (camera_graph_step lit) p).last_event_id.isSome) := by
  induction l with
  | nil => intro p; exact ⟨id, id, id, id, id⟩
  | cons a t ih =>
      intro p
      simp only [List.foldl_cons]
      have hs := camera_graph_step_preserve lit p a
      have ht := ih (camera_graph_step lit p a)
      exact ⟨fun h => ht.1 (hs.1 h), fun h => ht.2.1 (hs.2.1 h),
        fun h => ht.2.2.1 (hs.2.2.1 h), fun h => ht.2.2.2.1 (hs.2.2.2.1 h),
        fun h => ht.2.2.2.2 (hs.2.2.2.2 h)⟩

/-- Pass 2 never writes the five pass-1 usage fields. -/
theorem camera_record_step_frame (p : Pet) (r : LitterRecord) :
    (camera_record_step p r).last_litter_usage = p.last_litter_usage ∧
    (camera_record_step p r).last_measured_weight = p.last_measured_weight ∧
    (camera_record_step p r).last_duration_usage = p.last_duration_usage ∧
    (camera_record_step p r).last_device_used = p.last_device_used ∧
    (camera_record_step p r).last_event_id = p.last_event_id := by
  unfold camera_record_step
  split_ifs with hg
  · exact ⟨rfl, rfl, rfl, rfl, rfl⟩
  · exact ⟨rfl, rfl, rfl, rfl, rfl⟩

theorem record_fold_frame (l : List LitterRecord) :
    ∀ p : Pet,
      (l.foldl camera_record_step p).last_litter_usage = p.last_litter_usage ∧
      (l.foldl camera_record_step p).last_measured_weight = p.last_measured_weight ∧
      (l.foldl camera_record_step p).last_duration_usage = p.last_duration_usage ∧
      (l.foldl camera_record_step p).last_device_used = p.last_device_used ∧
      (l.foldl camera_record_step p).last_event_id = p.last_event_id := by
  induction l with
  | nil => intro p; exact ⟨rfl, rfl, rfl, rfl, rfl⟩
  | cons a t ih =>
      intro p
      simp only [List.foldl_cons]
      have hs := camera_record_step_frame p a
      have ht := ih (camera_record_step p a)
      exact ⟨ht.1.trans hs.1, ht.2.1.trans hs.2.1, ht.2.2.1.trans hs.2.2.1,
        ht.2.2.2.1.trans hs.2.2.2.1, ht.2.2.2.2.trans hs.2.2.2.2⟩

/-- `_process_litter_camera` is the pass-2 fold applied after the pass-1
fold, over the lists the isinstance checks extract from the two slots. -/
theorem process_litter_camera_eq (pet : Pet) (lit : Litter) :
    process_litter_camera pet lit =
      (match lit.device_records with
       | some (PyList.list l) => l
       | _ => []).foldl camera_record_step
        ((match lit.device_pet_graph_out with
          | some (StatsData.pog (PyList.list l)) => l
          | _ => []).foldl (camera_graph_step lit) pet) := rfl

/-- Claim C4 (amended): the guarded reconciler writes keep the claimed
discipline, with only the camera pass-2 health fields exempt.
In the no-camera pass, any record write happens only when the record matches
the pet and lastLitterUsage is unset or the record timestamp is strictly
newer (first conjunct); consequently lastLitterUsage only advances — never
regressed, never reverted to unset — and lastMeasuredWeight,
lastDurationUsage and lastDeviceUsed are never reverted to unset (second
conjunct).  In the camera pass 1, a pet-out-graph entry writes only when it
matches the pet and its time is strictly newer than the current
lastLitterUsage or that field is unset (third conjunct), and across the
whole camera pass all five pass-1 fields (lastLitterUsage,
lastMeasuredWeight, lastDurationUsage, lastDeviceUsed, lastEventId) are
never reverted to unset, since pass 2 never writes them (fourth conjunct).
The exemption the counterexample forces: the pass-2 health fields
(yowlingDetected, abnormalPhDetected, measuredPh, softStoolDetected,
lastUrination, lastDefecation) are rewritten by any record matching the pet
id and the current lastEventId with no timestamp comparison, and measuredPh
/ yowlingDetected can be reverted to unset. -/
theorem C4_amended_guarded_writes :
    (∀ (lit : Litter) (p p' : Pet) (stat : LitterRecord),
      no_camera_step lit p stat = Except.ok p' →
      p' = p ∨
        (stat.pet_id = p.pet_id ∧
         (p.last_litter_usage = none ∨
          ∃ l t, p.last_litter_usage = some l ∧ stat.timestamp = some t ∧ l < t) ∧
         p' = no_camera_writes lit p stat)) ∧
    (∀ (pet pet' : Pet) (litter_data : Litter),
      process_litter_no_camera pet litter_data = Except.ok pet' →
      LluAdvance pet.last_litter_usage pet'.last_litter_usage ∧
      (pet.last_measured_weight.isSome → pet'.last_measured_weight.isSome) ∧
      (pet.last_duration_usage.isSome → pet'.last_duration_usage.isSome) ∧
      (pet.last_device_used.isSome → pet'.last_device_used.isSome)) ∧
    (∀ (lit : Litter) (p : Pet) (v : PetOutGraph),
      camera_graph_step lit p v = p ∨
        (v.pet_id = p.pet_id ∧ pyNewer p.last_litter_usage v.time ∧
         camera_graph_step lit p v = camera_graph_writes lit p v)) ∧
    (∀ (pet : Pet) (litter_data : Litter),
      (pet.last_litter_usage.isSome →
        (process_litter_camera pet litter_data).last_litter_usage.isSome) ∧
      (pet.last_measured_weight.isSome →
        (process_litter_camera pet litter_data).last_measured_weight.isSome) ∧
      (pet.last_duration_usage.isSome →
        (process_litter_camera pet litter_data).last_duration_usage.isSome) ∧
      (pet.last_device_used.isSome →
        (process_litter_camera pet litter_data).last_device_used.isSome) ∧
      (pet.last_event_id.isSome →
        (process_litter_camera pet litter_data).last_event_id.isSome)) := by
  refine ⟨?_, ?_, ?_, ?_⟩
  · intro lit p p' stat h
    by_cases hp : stat.pet_id = p.pet_id
    · cases hllu : p.last_litter_usage with
      | none =>
          rw [no_camera_step_eval_none hp hllu] at h
          exact Or.inr ⟨hp, Or.inl rfl, (Except.ok.inj h).symm⟩
      | some l =>
          cases ht : stat.timestamp with
          | none =>
              rw [no_camera_step_eval_err hp hllu ht] at h
              exact absurd h (by simp)
          | some t =>
              by_cases hlt : l < t
              · rw [no_camera_step_eval_newer hp hllu ht hlt] at h
                exact Or.inr ⟨hp, Or.inr ⟨l, t, rfl, rfl, hlt⟩,
                  (Except.ok.inj h).symm⟩
              · rw [no_camera_step_eval_stale hllu ht hlt] at h
                exact Or.inl (Except.ok.inj h).symm
    · rw [no_camera_step_eval_skip hp] at h
      exact Or.inl (Except.ok.inj h).symm
  · intro pet pet' litter_data h
    unfold process_litter_no_camera at h
    cases hrecs : litter_data.device_records with
    | none =>
        rw [hrecs] at h
        obtain rfl : pet = pet' := Except.ok.inj h
        exact ⟨Or.inl rfl, id, id, id⟩
    | some pl =>
        cases pl with
        | list l =>
            rw [hrecs] at h
            exact no_camera_fold_advance litter_data l pet pet' h
        | single x =>
            rw [hrecs] at h
            exact absurd h (by simp)
  · intro lit p v
    by_cases hg : v.pet_id = p.pet_id ∧ pyNewer p.last_litter_usage v.time
    · refine Or.inr ⟨hg.1, hg.2, ?_⟩
      unfold camera_graph_step
      rw [if_pos hg]
    · refine Or.inl ?_
      unfold camera_graph_step
      rw [if_neg hg]
  · intro pet litter_data
    rw [process_litter_camera_eq]
    have hframe := record_fold_frame
      (match litter_data.device_records with
       | some (PyList.list l) => l
       | _ => [])
      ((match litter_data.device_pet_graph_out with
        | some (StatsData.pog (PyList.list l)) => l
        | _ => []).foldl (camera_graph_step litter_data) pet)
    have hpres := graph_fold_preserve litter_data
      (match litter_data.device_pet_graph_out with
       | some (StatsData.pog (PyList.list l)) => l
       | _ => []) pet
    exact ⟨fun h => hframe.1 ▸ hpres.1 h,
      fun h => hframe.2.1 ▸ hpres.2.1 h,
      fun h => hframe.2.2.1 ▸ hpres.2.2.1 h,
      fun h => hframe.2.2.2.1 ▸ hpres.2.2.2.1 h,
      fun h => hframe.2.2.2.2 ▸ hpres.2.2.2.2 h⟩

/-- Witness for C4 (amended): the concrete fresh pet and two-record litter
from the C5 development; lastLitterUsage advances from unset to 2. -/
theorem C4_witness :
    process_litter_no_camera pet5W lit5a =
      Except.ok { pet_id := 4, last_litter_usage := some 2 } ∧
    LluAdvance pet5W.last_litter_usage (some 2) := by
  have h : process_litter_no_camera pet5W lit5a =
      Except.ok { pet_id := 4, last_litter_usage := some 2 } := rfl
  exact ⟨h, (C4_amended_guarded_writes.2.1 pet5W _ lit5a h).1⟩

/-! ## Claim C6: camera-path event correlation -/

theorem camera_graph_step_run {lit : Litter} {pet : Pet} {g : PetOutGraph}
    (hpid : g.pet_id = pet.pet_id)
    (hnew : pyNewer pet.last_litter_usage g.time) :
    camera_graph_step lit pet g = camera_graph_writes lit pet g := by
  unfold camera_graph_step
  rw [if_pos ⟨hpid, hnew⟩]

theorem camera_graph_writes_event {lit : Litter} {pet : Pet} {g : PetOutGraph}
    {E : String} (hgev : g.event_id = some E) (hE : E ≠ "") :
    (camera_graph_writes lit pet g).last_event_id = some E := by
  simp [camera_graph_writes, orNone, hgev, hE, set_if_not_none]

theorem camera_graph_writes_pet_id {lit : Litter} {pet : Pet} {g : PetOutGraph} :
    (camera_graph_writes lit pet g).pet_id = pet.pet_id := rfl

theorem camera_graph_writes_abn {lit : Litter} {pet : Pet} {g : PetOutGraph} :
    (camera_graph_writes lit pet g).abnormal_ph_detected =
      pet.abnormal_ph_detected := rfl

theorem camera_record_step_abnormal {p : Pet} {r : LitterRecord}
    {item : SubContentItem} {tail : List SubContentItem}
    {c : SubContentContent} (hpid : r.pet_id = p.pet_id)
    (hev : r.event_id = p.last_event_id)
    (hsub : r.sub_content = some (item :: tail)) (hc : item.content = some c) :
    (camera_record_step p r).abnormal_ph_detected = c.ph_state := by
  unfold camera_record_step
  rw [if_pos ⟨hpid, hev⟩]
  simp [hsub, hc]

theorem camera_fold_noop (rs : List LitterRecord) :
    ∀ p : Pet,
      (∀ r ∈ rs, ¬ (r.pet_id = p.pet_id ∧ r.event_id = p.last_event_id)) →
      rs.foldl camera_record_step p = p := by
  induction rs with
  | nil => intro p _; rfl
  | cons a t ih =>
      intro p h
      have ha : camera_record_step p a = p := by
        unfold camera_record_step
        rw [if_neg (h a (List.mem_cons_self a t))]
      rw [List.foldl_cons, ha]
      exact ih p fun r hr => h r (List.mem_cons_of_mem a hr)

/-- Claim C6: with a pet-out-graph entry carrying eventId E for the pet, a
device record matching both the pet id and eventId E whose
subContent[0].content.phState is 1 leaves abnormalPhDetected equal to 1;
when no device record matches both the pet id and eventId E,
abnormalPhDetected is left exactly as it was (in particular unset if it
started unset). -/
theorem C6_correlation (pet : Pet) (g : PetOutGraph) (E : String)
    (lit1 lit2 : Litter)
    (hfresh : pet.last_litter_usage = none)
    (hgpid : g.pet_id = pet.pet_id)
    (hgev : g.event_id = some E) (hE : E ≠ "")
    (hg1 : lit1.device_pet_graph_out = some (StatsData.pog (PyList.list [g])))
    (hg2 : lit2.device_pet_graph_out = some (StatsData.pog (PyList.list [g]))) :
    (∀ (r : LitterRecord) (item : SubContentItem) (tail : List SubContentItem)
        (c : SubContentContent),
      lit1.device_records = some (PyList.list [r]) →
      r.pet_id = pet.pet_id → r.event_id = some E →
      r.sub_content = some (item :: tail) → item.content = some c →
      c.ph_state = some 1 →
      (process_litter_camera pet lit1).abnormal_ph_detected = some 1) ∧
    (∀ rs : List LitterRecord,
      lit2.device_records = some (PyList.list rs) →
      (∀ r ∈ rs, ¬ (r.pet_id = pet.pet_id ∧ r.event_id = some E)) →
      (process_litter_camera pet lit2).abnormal_ph_detected =
        pet.abnormal_ph_detected) := by
  have hnew : pyNewer pet.last_litter_usage g.time := by
    rw [hfresh]; trivial
  constructor
  · intro r item tail c hrecs hrpid hrev hsub hc hph
    have e : process_litter_camera pet lit1 =
        camera_record_step (camera_graph_step lit1 pet g) r := by
      unfold process_litter_camera
      rw [hg1, hrecs]
      simp [List.foldl_cons, List.foldl_nil]
    rw [e, camera_graph_step_run hgpid hnew]
    rw [camera_record_step_abnormal
      (by rw [camera_graph_writes_pet_id]; exact hrpid)
      (by rw [camera_graph_writes_event hgev hE]; exact hrev) hsub hc]
    exact hph
  · intro rs hrecs hnone
    have e : process_litter_camera pet lit2 =
        rs.foldl camera_record_step (camera_graph_step lit2 pet g) := by
      unfold process_litter_camera
      rw [hg2, hrecs]
      simp [List.foldl_cons, List.foldl_nil]
    rw [e, camera_graph_step_run hgpid hnew]
    rw [camera_fold_noop rs (camera_graph_writes lit2 pet g) ?_]
    · exact camera_graph_writes_abn
    · intro r hr
      rw [camera_graph_writes_pet_id, camera_graph_writes_event hgev hE]
      exact hnone r hr

def petC6W : Pet := { pet_id := 8 }

def graphC6W : PetOutGraph := { pet_id := 8, time := 3, event_id := some "EV" }

def recC6W : LitterRecord :=
  { pet_id := 8, timestamp := some 30, event_id := some "EV",
    sub_content := some [{ content := some { ph_state := some 1 } }] }

def litC6W : Litter :=
  { device_pet_graph_out := some (StatsData.pog (PyList.list [graphC6W])),
    device_records := some (PyList.list [recC6W]) }

/-- Witness for C6: the concrete correlated scenario ends with
abnormalPhDetected equal to 1. -/
theorem C6_witness :
    (process_litter_camera petC6W litC6W).abnormal_ph_detected = some 1 :=
  (C6_correlation petC6W graphC6W "EV" litC6W litC6W rfl rfl rfl (by decide)
    rfl rfl).1 recC6W { content := some { ph_state := some 1 } } []
    { ph_state := some 1 } rfl rfl rfl rfl rfl rfl

end PetkitSpec
